import Mathlib

/-!
Verification development for the object-tracking repository
(`yolo8/main.py` and `yolo8/lstm/collect_data.py`).

The development shallowly embeds the two pieces of real logic:

* the streaming-control session of `VideoProcessor` in `main.py`
  (`initialize_camera`, `release_camera`, `handle_message`), and
* the kinematic feature pipeline of `DataCollector` in
  `lstm/collect_data.py` (`calculate_features`, the velocity update of
  `collect_data`, and the collection loop with its
  `try/except KeyboardInterrupt/finally` termination sequence).

Numeric values carried by the code are embedded as rationals (the
arithmetic performed on them is field arithmetic), except for the
orientation angle, which is genuinely trigonometric and is embedded over
the reals; inside the rational pipeline the `atan2`-in-degrees call is an
explicit function parameter `atan2deg`.
-/

/-! ## Streaming session (`yolo8/main.py`) -/

/-- State owned by a `VideoProcessor` session: the `self.camera` slot
(`none` = no handle; `some true` = a successfully opened capture handle;
`some false` = a constructed handle that failed to open) and the
`self.is_streaming` flag. -/
structure SessionState where
  camera : Option Bool
  is_streaming : Bool
deriving DecidableEq

/-- One JSON text message sent by the server (`{'type': ..., 'message': ...}`). -/
structure OutMsg where
  type : String
  message : String
deriving DecidableEq

/-- An inbound client message after the `json.loads` attempt: either text
that is not parseable as JSON (`json.loads` raises `JSONDecodeError`), or a
parsed JSON object whose `data.get('action')` lookup yields `action`
(`none` when the field is absent). -/
inductive ClientMessage where
  | invalidJson : ClientMessage
  | json (action : Option String) : ClientMessage

/-- Python string formatting of `data.get('action')` as it appears in
`f'Unknown command: \x7bcommand\x7d'`: the value `None` prints as `"None"`. -/
def pyStrOfAction : Option String → String
  | none => "None"
  | some a => a

/-- Everything observable from one `handle_message` call: the session state
afterwards, the messages sent over the websocket in order, how many
background tasks were spawned by `asyncio.create_task`, how many
`cv2.VideoCapture` objects were constructed, how many `.release()` calls
were made on a held handle, and the exception (if any) that escaped the
handler uncaught. -/
structure MsgResult where
  state : SessionState
  sent : List OutMsg
  tasksStarted : Nat
  capturesConstructed : Nat
  releases : Nat
  exn : Option String
deriving DecidableEq

/-- `VideoProcessor.initialize_camera`: if `self.camera is None`, construct
`cv2.VideoCapture(0)` (the assignment to `self.camera` happens before the
`isOpened()` check, so a failed handle is still stored) and raise
`RuntimeError` when it cannot be opened.  Returns the new state, the number
of capture objects constructed, and the raised exception if any.
`canOpen` is the environment fact of whether the device opens. -/
def initialize_camera (canOpen : Bool) (s : SessionState) :
    SessionState × Nat × Option String :=
  match s.camera with
  | some _ => (s, 0, none)
  | none =>
      if canOpen then
        (⟨some true, s.is_streaming⟩, 1, none)
      else
        (⟨some false, s.is_streaming⟩, 1, some "카메라를 열 수 없습니다.")

/-- `VideoProcessor.release_camera`: release and clear the handle when one
is held, otherwise do nothing.  The boolean records whether an actual
`.release()` call happened. -/
def release_camera (s : SessionState) : SessionState × Bool :=
  match s.camera with
  | some _ => (⟨none, s.is_streaming⟩, true)
  | none => (s, false)

/-- `VideoProcessor.handle_message`: parse the message (the `invalidJson`
case is the `json.JSONDecodeError` branch), then dispatch on
`data.get('action')`.  Only `JSONDecodeError` is caught by the handler's
`try`; the `RuntimeError` from `initialize_camera` escapes uncaught. -/
def handle_message (canOpen : Bool) (s : SessionState) (m : ClientMessage) :
    MsgResult :=
  match m with
  | .invalidJson => ⟨s, [⟨"error", "Invalid JSON format"⟩], 0, 0, 0, none⟩
  | .json action =>
      if action = some "start" then
        if s.is_streaming then
          ⟨s, [], 0, 0, 0, none⟩
        else
          match initialize_camera canOpen s with
          | (s1, n, some e) => ⟨s1, [], 0, n, 0, some e⟩
          | (s1, n, none) =>
              ⟨⟨s1.camera, true⟩,
               [⟨"response", "Camera streaming started"⟩], 1, n, 0, none⟩
      else if action = some "stop" then
        match release_camera ⟨s.camera, false⟩ with
        | (s2, released) =>
            ⟨s2, [⟨"response", "Camera streaming stopped"⟩], 0, 0,
             if released then 1 else 0, none⟩
      else
        ⟨s, [⟨"error", "Unknown command: " ++ pyStrOfAction action⟩],
         0, 0, 0, none⟩

/-! ## Feature pipeline (`yolo8/lstm/collect_data.py`) -/

/-- The exception raised by `head, heart, tail = keypoints[:3]` when fewer
than three keypoints are supplied (`ValueError: not enough values to
unpack`).  `KeyboardInterrupt` is modelled separately as a loop input. -/
inductive PyExn where
  | valueError : PyExn
deriving DecidableEq

/-- The fields written by `DataCollector.calculate_features` (positions,
orientation, capture timestamp). -/
structure RawFeatures where
  head_x : ℚ
  head_y : ℚ
  heart_x : ℚ
  heart_y : ℚ
  body_orientation : ℚ
  timestamp : ℚ
deriving DecidableEq

/-- A full feature record, after `collect_data` has added the velocity
fields with `features.update`. -/
structure Features extends RawFeatures where
  velocity_x : ℚ
  velocity_y : ℚ
  angular_velocity : ℚ
deriving DecidableEq

/-- The policy constant `max_time_gap = 0.1` of `collect_data`. -/
def max_time_gap : ℚ := 1 / 10

/-- `DataCollector.calculate_features`: unpack the first three keypoints as
head, heart, tail (raising when fewer than three exist), form the two
segment direction vectors, average them, and take `atan2` in degrees of the
mean direction.  Keypoint rows carry only the `(x, y)` coordinates the code
reads (the confidence column of the model output is never accessed);
`atan2deg` is the `np.degrees(np.arctan2(·, ·))` call, passed in as a
parameter because the surrounding arithmetic is exact while `atan2` itself
is transcendental; `now` is the result of `time.time()`. -/
def calculate_features (atan2deg : ℚ → ℚ → ℚ) (keypoints : List (ℚ × ℚ))
    (now : ℚ) : Except PyExn RawFeatures :=
  match keypoints with
  | head :: heart :: tail :: _ =>
      let head_to_heart := (heart.1 - head.1, heart.2 - head.2)
      let heart_to_tail := (tail.1 - heart.1, tail.2 - heart.2)
      let mean_direction :=
        ((head_to_heart.1 + heart_to_tail.1) / 2,
         (head_to_heart.2 + heart_to_tail.2) / 2)
      .ok ⟨head.1, head.2, heart.1, heart.2,
           atan2deg mean_direction.2 mean_direction.1, now⟩
  | _ => .error .valueError

/-- The velocity-update block of `collect_data` (the
`if fixed_track_id in prev_features: ... else: ...` ladder): with a fresh
previous record (`time_diff <= max_time_gap`) the velocities are finite
differences over `time_diff`; otherwise, and when no previous record
exists, all three velocities are set to `0`.  Division is the total
division of `ℚ`. -/
def updateVelocities (prev : Option Features) (raw : RawFeatures) : Features :=
  match prev with
  | some p =>
      let time_diff := raw.timestamp - p.timestamp
      if time_diff ≤ max_time_gap then
        ⟨raw, (raw.heart_x - p.heart_x) / time_diff,
              (raw.heart_y - p.heart_y) / time_diff,
              (raw.body_orientation - p.body_orientation) / time_diff⟩
      else
        ⟨raw, 0, 0, 0⟩
  | none => ⟨raw, 0, 0, 0⟩

/-- The data reaching feature extraction on one frame: the keypoints of the
highest-confidence detection and the `time.time()` value observed inside
`calculate_features`. -/
structure FrameDet where
  kpts : List (ℚ × ℚ)
  t : ℚ
deriving DecidableEq

/-- One iteration's worth of external input to the collection loop:
`noFrame` is `ret == False` (end of source); `frame det quit` is a decoded
frame, with `det = none` when the tracker reports no ids/keypoints and
`quit = true` when `cv2.waitKey` sees the `q` key after the frame is shown;
`interrupt` is a `KeyboardInterrupt` delivered during the iteration. -/
inductive FrameInput where
  | noFrame : FrameInput
  | frame (det : Option FrameDet) (quit : Bool) : FrameInput
  | interrupt : FrameInput

/-- Mutable state of `collect_data`'s loop: the `prev_features` entry for
the fixed primary track id `0`, the `feature_history[0]` list, and the
`processed_frames` counter. -/
structure LoopState where
  prev_features : Option Features
  feature_history : List Features
  processed_frames : Nat
deriving DecidableEq

/-- How the `while True` body of `collect_data` was exited. -/
inductive LoopExit where
  | endOfSource : LoopExit
  | quitKey : LoopExit
  | interrupted : LoopExit
  | raised (e : PyExn) : LoopExit
deriving DecidableEq

/-- The `while True` loop of `collect_data`: read a frame (exhaustion
breaks normally), run tracking, and when a detection with keypoints is
present run `calculate_features` (whose `ValueError` propagates out of the
loop, uncaught), apply the velocity update, store the record as
`prev_features[0]` and append it to `feature_history[0]`; the
`processed_frames` counter advances for every decoded frame. -/
def runLoop (atan2deg : ℚ → ℚ → ℚ) :
    List FrameInput → LoopState → LoopState × LoopExit
  | [], s => (s, .endOfSource)
  | .noFrame :: _, s => (s, .endOfSource)
  | .interrupt :: _, s => (s, .interrupted)
  | .frame det quit :: rest, s =>
      match det with
      | none =>
          let s1 : LoopState :=
            ⟨s.prev_features, s.feature_history, s.processed_frames + 1⟩
          if quit then (s1, .quitKey) else runLoop atan2deg rest s1
      | some fd =>
          match calculate_features atan2deg fd.kpts fd.t with
          | .error e => (s, .raised e)
          | .ok raw =>
              let f := updateVelocities s.prev_features raw
              let s1 : LoopState :=
                ⟨some f, s.feature_history ++ [f], s.processed_frames + 1⟩
              if quit then (s1, .quitKey) else runLoop atan2deg rest s1

/-- The teardown effects of `collect_data`'s `finally` block: `save_data`
persists a snapshot of the history, then `cleanup` releases the capture
source. -/
inductive CleanupAction where
  | saveSnapshot (history : List Features) : CleanupAction
  | releaseSource : CleanupAction
deriving DecidableEq

/-- The observable outcome of one `collect_data` run: the final loop state,
the ordered teardown actions, and the exception still propagating after the
`finally` block (Python re-raises an uncaught exception once the `finally`
suite completes; `KeyboardInterrupt` is caught by the `except` clause). -/
structure CollectResult where
  final : LoopState
  cleanup : List CleanupAction
  exn : Option PyExn
deriving DecidableEq

/-- `DataCollector.collect_data` after a successful `initialize_video`:
run the loop under `try/except KeyboardInterrupt/finally`, where the
`finally` suite always runs `save_data()` then `self.cleanup()` in that
order, whatever way the loop ended. -/
def collect_data (atan2deg : ℚ → ℚ → ℚ) (inputs : List FrameInput) :
    CollectResult :=
  match runLoop atan2deg inputs ⟨none, [], 0⟩ with
  | (s, ex) =>
      ⟨s, [.saveSnapshot s.feature_history, .releaseSource],
       match ex with
       | .raised e => some e
       | _ => none⟩

/-! ## Real-valued orientation (`np.degrees(np.arctan2 ...)`) -/

/-- `np.degrees(np.arctan2(y, x))` over the reals: the argument of the
complex number `x + y*i`, scaled from radians to degrees.  `Complex.arg`
uses the same convention as `atan2` (angle of the point `(x, y)`, zero at
the origin). -/
noncomputable def atan2deg_real (y x : ℝ) : ℝ :=
  Complex.arg ⟨x, y⟩ * 180 / Real.pi

/-- The orientation computation of `calculate_features` over the reals:
average the head→heart and heart→tail direction vectors componentwise and
take `atan2` in degrees of the mean. -/
noncomputable def calculate_body_orientation (head heart tail : ℝ × ℝ) : ℝ :=
  let head_to_heart := (heart.1 - head.1, heart.2 - head.2)
  let heart_to_tail := (tail.1 - heart.1, tail.2 - heart.2)
  let mean_direction :=
    ((head_to_heart.1 + heart_to_tail.1) / 2,
     (head_to_heart.2 + heart_to_tail.2) / 2)
  atan2deg_real mean_direction.2 mean_direction.1

/-- The shortest-signed-angle difference prescribed by the specification
for the angular-velocity computation: the representative of `a - b` in
`[-180, 180)`, via a floor-based modulus.  This definition follows the
specification's words and exists to be compared against the code's plain
difference. -/
def shortestSignedAngleDiff (a b : ℚ) : ℚ :=
  let d := a - b + 180
  d - 360 * (⌊d / 360⌋ : ℚ) - 180

/-! ## Theorems about the streaming session -/

/-- Claim C2, counterexample: with the session already streaming (state
`⟨some true, true⟩`), a `start` command leaves the state alone but sends
no message at all — in particular no acknowledgement — because the reply
in `handle_message` sits inside the `if not self.is_streaming` block. -/
theorem repeated_start_no_ack_counterexample :
    (handle_message true ⟨some true, true⟩ (.json (some "start"))).sent = [] ∧
    (⟨"response", "Camera streaming started"⟩ : OutMsg) ∉
      (handle_message true ⟨some true, true⟩ (.json (some "start"))).sent ∧
    (handle_message true ⟨some true, true⟩ (.json (some "start"))).state
      = ⟨some true, true⟩ := by
  decide

/-- Claim C2, amended: a `start` command received while the session is
already streaming is a complete no-op — the state is unchanged, no second
capture resource is constructed, no second push loop is started, and no
reply of any kind is sent to the client. -/
theorem repeated_start_silent_noop (c : Bool) (s : SessionState)
    (h : s.is_streaming = true) :
    handle_message c s (.json (some "start")) = ⟨s, [], 0, 0, 0, none⟩ := by
  simp [handle_message, h]

/-- Witness for `repeated_start_silent_noop` at the streaming state. -/
theorem repeated_start_silent_noop_witness :
    handle_message true ⟨some true, true⟩ (.json (some "start"))
      = ⟨⟨some true, true⟩, [], 0, 0, 0, none⟩ :=
  repeated_start_silent_noop true ⟨some true, true⟩ rfl

/-- Claim C3, counterexample: a `start` command in the idle state with a
camera that cannot be opened sends nothing to the client — the
`RuntimeError` of `initialize_camera` escapes `handle_message`, whose
`try` only catches `json.JSONDecodeError`. -/
theorem camera_open_failure_counterexample :
    (handle_message false ⟨none, false⟩ (.json (some "start"))).sent = [] ∧
    (handle_message false ⟨none, false⟩ (.json (some "start"))).exn
      = some "카메라를 열 수 없습니다." := by
  decide

/-- Claim C3, amended: when `start` arrives in the idle state and the
capture source cannot be opened, no message is sent to the client; the
`RuntimeError` escapes the handler uncaught, the streaming flag stays
false, no push loop is started, and the failed capture handle remains
stored in `self.camera`. -/
theorem camera_open_failure_uncaught (s : SessionState)
    (h1 : s.is_streaming = false) (h2 : s.camera = none) :
    handle_message false s (.json (some "start"))
      = ⟨⟨some false, false⟩, [], 0, 1, 0, some "카메라를 열 수 없습니다."⟩ := by
  obtain ⟨cam, str⟩ := s
  cases h1
  cases h2
  rfl

/-- Witness for `camera_open_failure_uncaught` at the idle state. -/
theorem camera_open_failure_uncaught_witness :
    handle_message false ⟨none, false⟩ (.json (some "start"))
      = ⟨⟨some false, false⟩, [], 0, 1, 0, some "카메라를 열 수 없습니다."⟩ :=
  camera_open_failure_uncaught ⟨none, false⟩ rfl rfl

/-- Claim C6: an unparseable message is answered with
`\x7btype: "error", message: "Invalid JSON format"\x7d` and a parsed message
with an unrecognized action with
`\x7btype: "error", message: "Unknown command: <action>"\x7d`; in both cases the
session state is unchanged, no resource is touched, and no exception
escapes (so the connection is not terminated). -/
theorem protocol_error_replies (c : Bool) (s : SessionState)
    (a : Option String) (h1 : a ≠ some "start") (h2 : a ≠ some "stop") :
    handle_message c s .invalidJson
      = ⟨s, [⟨"error", "Invalid JSON format"⟩], 0, 0, 0, none⟩ ∧
    handle_message c s (.json a)
      = ⟨s, [⟨"error", "Unknown command: " ++ pyStrOfAction a⟩],
         0, 0, 0, none⟩ := by
  refine ⟨rfl, ?_⟩
  simp [handle_message, h1, h2]

/-- Witness for `protocol_error_replies` with the action `"dance"`. -/
theorem protocol_error_replies_witness :
    handle_message true ⟨none, false⟩ .invalidJson
      = ⟨⟨none, false⟩, [⟨"error", "Invalid JSON format"⟩], 0, 0, 0, none⟩ ∧
    handle_message true ⟨none, false⟩ (.json (some "dance"))
      = ⟨⟨none, false⟩, [⟨"error", "Unknown command: dance"⟩],
         0, 0, 0, none⟩ :=
  protocol_error_replies true ⟨none, false⟩ (some "dance")
    (by decide) (by decide)

/-- Claim C9: a `stop` command in the idle state (no capture handle, not
streaming) is accepted: the state is unchanged, `release_camera` is a
no-op (no actual `.release()` call happens), and the client still receives
the `Camera streaming stopped` acknowledgement. -/
theorem stop_in_idle_safe (c : Bool) (s : SessionState)
    (h1 : s.camera = none) (h2 : s.is_streaming = false) :
    handle_message c s (.json (some "stop"))
      = ⟨s, [⟨"response", "Camera streaming stopped"⟩], 0, 0, 0, none⟩ ∧
    release_camera s = (s, false) := by
  obtain ⟨cam, str⟩ := s
  cases h1
  cases h2
  exact ⟨rfl, rfl⟩

/-- Witness for `stop_in_idle_safe` at the idle state. -/
theorem stop_in_idle_safe_witness :
    handle_message true ⟨none, false⟩ (.json (some "stop"))
      = ⟨⟨none, false⟩, [⟨"response", "Camera streaming stopped"⟩],
         0, 0, 0, none⟩ ∧
    release_camera ⟨none, false⟩ = (⟨none, false⟩, false) :=
  stop_in_idle_safe true ⟨none, false⟩ rfl rfl

/-- Claim C10: a JSON object without an `action` field is not treated as
malformed JSON; `data.get('action')` yields `None`, the session replies
`\x7btype: "error", message: "Unknown command: None"\x7d`, and the session state
is unchanged. -/
theorem missing_action_unknown_command_none (c : Bool) (s : SessionState) :
    handle_message c s (.json none)
      = ⟨s, [⟨"error", "Unknown command: None"⟩], 0, 0, 0, none⟩ :=
  rfl

/-! ## Theorems about the feature pipeline -/

/-- Previous record at heading `179` degrees, used to exhibit the
wraparound behaviour of the angular-velocity computation. -/
def prev_wrap : Features := ⟨⟨0, 0, 0, 0, 179, 0⟩, 0, 0, 0⟩

/-- New raw record at heading `-179` degrees, `0.05` seconds later. -/
def raw_wrap : RawFeatures := ⟨0, 0, 0, 0, -179, 1 / 20⟩

/-- Claim C1, counterexample: across the heading change `179° → -179°`
with `Δt = 0.05 ≤ max_time_gap`, the code's angular velocity is
`(-179 - 179) / 0.05 = -7160` (magnitude `358°/Δt`), while the
shortest-signed-angle difference prescribed by the specification gives
`2 / 0.05 = 40`: the two disagree, so the code does not use
shortest-signed-angle subtraction. -/
theorem angular_velocity_wraparound_counterexample :
    raw_wrap.timestamp - prev_wrap.timestamp ≤ max_time_gap ∧
    (updateVelocities (some prev_wrap) raw_wrap).angular_velocity = -7160 ∧
    shortestSignedAngleDiff raw_wrap.body_orientation prev_wrap.body_orientation
        / (raw_wrap.timestamp - prev_wrap.timestamp) = 40 ∧
    (updateVelocities (some prev_wrap) raw_wrap).angular_velocity ≠
      shortestSignedAngleDiff raw_wrap.body_orientation
          prev_wrap.body_orientation
        / (raw_wrap.timestamp - prev_wrap.timestamp) := by
  have hf : ⌊((-179 : ℚ) - 179 + 180) / 360⌋ = (-1 : ℤ) := by
    rw [Int.floor_eq_iff]
    norm_num
  have hd : shortestSignedAngleDiff raw_wrap.body_orientation
      prev_wrap.body_orientation = 2 := by
    simp only [shortestSignedAngleDiff, raw_wrap, prev_wrap]
    rw [hf]
    norm_num
  have hv : (updateVelocities (some prev_wrap) raw_wrap).angular_velocity
      = -7160 := by
    norm_num [updateVelocities, prev_wrap, raw_wrap, max_time_gap]
  refine ⟨by norm_num [prev_wrap, raw_wrap, max_time_gap], hv, ?_, ?_⟩
  · rw [hd]
    norm_num [prev_wrap, raw_wrap]
  · rw [hv, hd]
    norm_num [prev_wrap, raw_wrap]

/-- Claim C1, amended: for consecutive records of the same track with
`Δt ≤ max_time_gap`, the angular velocity is the plain difference of the
two `body_orientation` values divided by `Δt` — no wraparound handling —
so a heading change from `179°` to `-179°` yields magnitude `358°/Δt`. -/
theorem angular_velocity_plain_difference (p : Features) (r : RawFeatures)
    (h : r.timestamp - p.timestamp ≤ max_time_gap) :
    (updateVelocities (some p) r).angular_velocity
      = (r.body_orientation - p.body_orientation)
          / (r.timestamp - p.timestamp) := by
  simp [updateVelocities, h]

/-- Witness for `angular_velocity_plain_difference` at the wraparound
records. -/
theorem angular_velocity_plain_difference_witness :
    (updateVelocities (some prev_wrap) raw_wrap).angular_velocity
      = (raw_wrap.body_orientation - prev_wrap.body_orientation)
          / (raw_wrap.timestamp - prev_wrap.timestamp) :=
  angular_velocity_plain_difference prev_wrap raw_wrap
    (by norm_num [prev_wrap, raw_wrap, max_time_gap])

/-- Claim C5: with a previous record within `max_time_gap`, the velocities
are the finite differences of the heart coordinates divided by `Δt`; with
the gap exceeded, or with no previous record, all three velocity fields
are exactly zero. -/
theorem velocity_finite_difference (p : Features) (r : RawFeatures) :
    ((r.timestamp - p.timestamp ≤ max_time_gap →
        (updateVelocities (some p) r).velocity_x
            = (r.heart_x - p.heart_x) / (r.timestamp - p.timestamp) ∧
        (updateVelocities (some p) r).velocity_y
            = (r.heart_y - p.heart_y) / (r.timestamp - p.timestamp)) ∧
      (max_time_gap < r.timestamp - p.timestamp →
        (updateVelocities (some p) r).velocity_x = 0 ∧
        (updateVelocities (some p) r).velocity_y = 0 ∧
        (updateVelocities (some p) r).angular_velocity = 0)) ∧
    (updateVelocities none r).velocity_x = 0 ∧
    (updateVelocities none r).velocity_y = 0 ∧
    (updateVelocities none r).angular_velocity = 0 := by
  refine ⟨⟨fun h => ?_, fun h => ?_⟩, rfl, rfl, rfl⟩
  · simp [updateVelocities, h]
  · simp [updateVelocities, not_le.mpr h]

/-- Previous record used in the fresh-gap witness. -/
def prev_fresh : Features := ⟨⟨0, 0, 0, 0, 0, 0⟩, 0, 0, 0⟩

/-- New raw record `1/30` seconds after `prev_fresh`. -/
def raw_fresh : RawFeatures := ⟨0, 0, 1 / 10, -1 / 10, 90, 1 / 30⟩

/-- Witness for `velocity_finite_difference` in the fresh-gap branch. -/
theorem velocity_finite_difference_witness :
    (updateVelocities (some prev_fresh) raw_fresh).velocity_x
        = (raw_fresh.heart_x - prev_fresh.heart_x)
            / (raw_fresh.timestamp - prev_fresh.timestamp) ∧
    (updateVelocities (some prev_fresh) raw_fresh).velocity_y
        = (raw_fresh.heart_y - prev_fresh.heart_y)
            / (raw_fresh.timestamp - prev_fresh.timestamp) :=
  (velocity_finite_difference prev_fresh raw_fresh).1.1
    (by norm_num [prev_fresh, raw_fresh, max_time_gap])

/-! ## Theorems about the collection loop -/

/-- Claim C4, counterexample: a run whose first frame carries only two
keypoints and whose second frame is well-formed aborts on the first frame —
the `ValueError` from the unpacking propagates (the loop's `try` catches
only `KeyboardInterrupt`), the second frame is never processed, and no
feature is collected — instead of skipping the bad frame and continuing. -/
theorem short_keypoints_abort_counterexample :
    (collect_data (fun _ _ => 0)
        [.frame (some ⟨[(0, 0), (1, 1)], 0⟩) false,
         .frame (some ⟨[(0, 0), (1, 1), (2, 2)], 1 / 30⟩) false]).exn
      = some .valueError ∧
    (collect_data (fun _ _ => 0)
        [.frame (some ⟨[(0, 0), (1, 1)], 0⟩) false,
         .frame (some ⟨[(0, 0), (1, 1), (2, 2)], 1 / 30⟩) false]).final
      = ⟨none, [], 0⟩ := by
  constructor <;> rfl

/-- Claim C4, amended: feature extraction on fewer than three keypoints
does fail (with the `ValueError` of `head, heart, tail = keypoints[:3]`),
but the Collection Loop does not treat this as recoverable — the exception
escapes the loop body immediately, aborting the run at the current frame
with the state untouched, rather than skipping the frame and continuing. -/
theorem short_keypoints_unpack_error_aborts_loop
    (atan2deg : ℚ → ℚ → ℚ) (fd : FrameDet) (h : fd.kpts.length < 3)
    (q : Bool) (rest : List FrameInput) (s : LoopState) :
    calculate_features atan2deg fd.kpts fd.t = .error .valueError ∧
    runLoop atan2deg (.frame (some fd) q :: rest) s
      = (s, .raised .valueError) := by
  obtain ⟨kpts, t⟩ := fd
  have hcf : calculate_features atan2deg kpts t = .error .valueError := by
    rcases kpts with _ | ⟨a, _ | ⟨b, _ | ⟨c, l⟩⟩⟩
    · rfl
    · rfl
    · rfl
    · simp only [List.length_cons] at h
      omega
  refine ⟨hcf, ?_⟩
  simp [runLoop, hcf]

/-- Witness for `short_keypoints_unpack_error_aborts_loop` on a
two-keypoint frame. -/
theorem short_keypoints_unpack_error_aborts_loop_witness :
    calculate_features (fun _ _ => 0) [(0, 0), (1, 1)] 0
      = .error .valueError ∧
    runLoop (fun _ _ => 0)
        [.frame (some ⟨[(0, 0), (1, 1)], 0⟩) false] ⟨none, [], 0⟩
      = (⟨none, [], 0⟩, .raised .valueError) :=
  short_keypoints_unpack_error_aborts_loop (fun _ _ => 0)
    ⟨[(0, 0), (1, 1)], 0⟩ (by decide) false [] ⟨none, [], 0⟩

/-- Claim C7: whichever way the collection loop terminates — end of
source, `q` key, `KeyboardInterrupt`, or an exception raised mid-loop —
the teardown of `collect_data` is always exactly: persist the snapshot of
the final history, then release the capture source, in that order. -/
theorem cleanup_always_saves_then_releases
    (atan2deg : ℚ → ℚ → ℚ) (inputs : List FrameInput) :
    (collect_data atan2deg inputs).cleanup
      = [.saveSnapshot (collect_data atan2deg inputs).final.feature_history,
         .releaseSource] := by
  rcases h : runLoop atan2deg inputs ⟨none, [], 0⟩ with ⟨s, ex⟩
  simp [collect_data, h]

/-! ## Theorems about the orientation range -/

/-- The scaled complex argument lies in `(-180, 180]`. -/
theorem atan2deg_real_range (y x : ℝ) :
    -180 < atan2deg_real y x ∧ atan2deg_real y x ≤ 180 := by
  obtain ⟨h1, h2⟩ := Complex.arg_mem_Ioc (⟨x, y⟩ : ℂ)
  have hpi : (0 : ℝ) < Real.pi := Real.pi_pos
  unfold atan2deg_real
  constructor
  · rw [lt_div_iff₀ hpi]
    nlinarith
  · rw [div_le_iff₀ hpi]
    nlinarith

/-- Claim C8: for every keypoint triple, the body orientation computed by
`calculate_features` — `atan2` in degrees of the componentwise mean of the
head→heart and heart→tail direction vectors — lies in `(-180, 180]`. -/
theorem body_orientation_range (head heart tail : ℝ × ℝ) :
    -180 < calculate_body_orientation head heart tail ∧
    calculate_body_orientation head heart tail ≤ 180 := by
  unfold calculate_body_orientation
  exact atan2deg_real_range _ _
